import Mathlib

/-!
Verification development for `src/docs/ocr_pdf.py` (cartyd/settleflow).

The program is a linear pipeline: render a PDF into page images, base64-encode
each page's PNG serialization, POST it to an Ollama inference endpoint, collect
labeled per-page text blocks, join them with a blank-line separator and emit
the result to stdout or to a file.

Shallow embedding conventions:
* A page image is represented by the PNG byte stream that PIL's
  `image.save(buffered, format="PNG")` would produce for it (the PDF renderer
  and PIL are external collaborators; their outputs are inputs to our model).
* Bytes are `Nat` values, meaningful when `< 256`.
* The network is an oracle `Nat → HttpOutcome` giving, for each 1-based page
  number, the outcome of that page's HTTP POST (transport error, or a response
  with a status code and an optional parsed JSON-object body; `none` body means
  the body did not parse as a JSON object, so `.json()`/`.get` raises).
  JSON object bodies are modelled as association lists of string fields, which
  covers every behaviour the claims exercise.
* Diagnostic-stream writes (`print(..., file=sys.stderr)`) are modelled as an
  explicit list of `Msg` values; `sys.exit(1)` as exit code 1 with the
  remainder of the run not executed.
-/

namespace OcrPdf

/-- A rendered page image, identified with the PNG byte stream PIL would
serialize it to (`image.save(buffered, format="PNG")` in `image_to_base64`). -/
structure PageImage where
  pngBytes : List Nat
deriving Repr, DecidableEq

/-! ### Base64 (Python `base64.b64encode`, standard alphabet with padding) -/

/-- The standard base64 alphabet used by `base64.b64encode`. -/
def b64Chars : List Char :=
  "ABCDEFGHIJKLMNOPQRSTUVWXYZabcdefghijklmnopqrstuvwxyz0123456789+/".data

/-- Character for a 6-bit group. -/
def b64Char (n : Nat) : Char := b64Chars.getD n 'A'

/-- Index of a character in the alphabet, scanning from position `i`. -/
def b64IndexAux (c : Char) : List Char → Nat → Option Nat
  | [], _ => none
  | x :: xs, i => if x = c then some i else b64IndexAux c xs (i + 1)

/-- Index of a character in the base64 alphabet (`none` for `=` and junk). -/
def b64Index (c : Char) : Option Nat := b64IndexAux c b64Chars 0

/-- Model of `base64.b64encode` on a byte list: 3 bytes become 4 alphabet characters;
a 1- or 2-byte tail is padded with `=`. -/
def b64EncodeBytes : List Nat → List Char
  | [] => []
  | [a] => [b64Char (a / 4), b64Char (a % 4 * 16), '=', '=']
  | [a, b] => [b64Char (a / 4), b64Char (a % 4 * 16 + b / 16), b64Char (b % 16 * 4), '=']
  | a :: b :: c :: rest =>
      b64Char (a / 4) :: b64Char (a % 4 * 16 + b / 16) :: b64Char (b % 16 * 4 + c / 64)
        :: b64Char (c % 64) :: b64EncodeBytes rest

/-- Model of `base64.b64decode` on a character list: groups of 4 characters become
3 bytes; `=`-padded final groups yield 1 or 2 bytes; anything else fails. -/
def b64DecodeChars : List Char → Option (List Nat)
  | [] => some []
  | w :: x :: y :: z :: rest =>
      if y = '=' then
        if z = '=' ∧ rest = [] then
          match b64Index w, b64Index x with
          | some iw, some ix => some [iw * 4 + ix / 16]
          | _, _ => none
        else none
      else if z = '=' then
        if rest = [] then
          match b64Index w, b64Index x, b64Index y with
          | some iw, some ix, some iy => some [iw * 4 + ix / 16, ix % 16 * 16 + iy / 4]
          | _, _, _ => none
        else none
      else
        match b64Index w, b64Index x, b64Index y, b64Index z, b64DecodeChars rest with
        | some iw, some ix, some iy, some iz, some tail =>
            some ((iw * 4 + ix / 16) :: (ix % 16 * 16 + iy / 4) :: (iy % 4 * 64 + iz) :: tail)
        | _, _, _, _, _ => none
  | _ => none

/-- Python `image_to_base64(image)`: serialize the image as PNG bytes and base64-encode
them (`base64.b64encode(buffered.getvalue()).decode('utf-8')`). -/
def image_to_base64 (image : PageImage) : String :=
  String.mk (b64EncodeBytes image.pngBytes)

/-- Spec-side inverse used to state the round trip: base64-decode a string back
to the byte stream. -/
def base64Decode (s : String) : Option (List Nat) := b64DecodeChars s.data

/-! ### Inference client (`ocr_image_with_ollama`) -/

/-- A parsed JSON object body, restricted to string fields (all the code reads
is the string `"response"` field). -/
abbrev JsonObj : Type := List (String × String)

/-- Python `dict.get(key, default)`. -/
def dictGet (d : JsonObj) (key : String) (dflt : String) : String :=
  match List.lookup key d with
  | some v => v
  | none => dflt

/-- Outcome of one `requests.post` call, as seen by the client. -/
inductive HttpOutcome where
  /-- The call `requests.post` itself raised (connection refused, timeout, ...). -/
  | transportError : HttpOutcome
  /-- A response arrived with this status code; `body` is its JSON-object
  parse, `none` when the body is not a JSON object (`.json()`/`.get` raises). -/
  | response (status : Nat) (body : Option JsonObj) : HttpOutcome

/-- The JSON request body built by `ocr_image_with_ollama`. -/
structure Payload where
  model : String
  prompt : String
  stream : Bool
  images : List String
deriving Repr, DecidableEq

/-- One HTTP POST request as issued by the client. -/
structure HttpRequest where
  url : String
  payload : Payload
  contentType : String
deriving Repr, DecidableEq

/-- Diagnostic-stream (`sys.stderr`) messages the program can emit. -/
inductive Msg where
  | convertingPdf
  | errorConvertingPdf
  | processingPages (n : Nat)
  | processingPage (i total : Nat)
  | errorCallingOllama
  | warningNoText (i : Nat)
  | fileNotFound (path : String)
  | outputWritten (path : String)
deriving Repr, DecidableEq

/-- Observable effect of one `ocr_image_with_ollama` call: the request it
issued, the stderr messages it printed, and its return value
(`none` models Python `None`). -/
structure OcrEffect where
  request : HttpRequest
  logs : List Msg
  result : Option String
deriving Repr, DecidableEq

/-- Python `ocr_image_with_ollama(base64_image, model, server_url)`: build the payload,
POST it as JSON, `raise_for_status()`, then `response.json().get('response', '')`.
Any exception (transport error, 4xx/5xx status, unparseable body) is caught:
an error is logged and `None` returned. -/
def ocr_image_with_ollama (base64_image model server_url : String)
    (outcome : HttpOutcome) : OcrEffect :=
  let payload : Payload :=
    { model := model
      prompt := "Extract and return all text from this image. Provide only the text content without any additional commentary."
      stream := false
      images := [base64_image] }
  let request : HttpRequest :=
    { url := server_url, payload := payload, contentType := "application/json" }
  match outcome with
  | .transportError => { request := request, logs := [.errorCallingOllama], result := none }
  | .response status body =>
      -- `raise_for_status` raises exactly for 4xx/5xx status codes.
      if 400 ≤ status ∧ status < 600 then
        { request := request, logs := [.errorCallingOllama], result := none }
      else
        match body with
        | none => { request := request, logs := [.errorCallingOllama], result := none }
        | some d =>
            { request := request, logs := [], result := some (dictGet d "response" "") }

/-- The client's return value as a function of the HTTP outcome alone (the
result of `ocr_image_with_ollama` does not depend on the image, model or URL). -/
def inferText (outcome : HttpOutcome) : Option String :=
  (ocr_image_with_ollama "" "" "" outcome).result

/-! ### Pipeline driver (`main`) -/

/-- Python truthiness of the `text` variable in `main` (`if text:`):
`None` and the empty string are falsy. -/
def truthy : Option String → Bool
  | none => false
  | some t => !t.isEmpty

/-- The labeled block `f"--- Page {i} ---\n{text}\n"` appended for page `i`. -/
def pageBlock (i : Nat) (text : String) : String :=
  s!"--- Page {i} ---\n{text}\n"

/-- The page loop of `main`: for each image (1-based page number `i`), encode
it, call the client, and either append a labeled block or warn. Returns the
requests issued, the accumulated `all_text`, and the stderr messages, in
program order. -/
def processPages (model server_url : String) (oracle : Nat → HttpOutcome)
    (total : Nat) : List PageImage → Nat → List HttpRequest × List String × List Msg
  | [], _ => ([], [], [])
  | image :: rest, i =>
      let base64_image := image_to_base64 image
      let eff := ocr_image_with_ollama base64_image model server_url (oracle i)
      let next := processPages model server_url oracle total rest (i + 1)
      if truthy eff.result then
        (eff.request :: next.1, pageBlock i (eff.result.getD "") :: next.2.1,
          Msg.processingPage i total :: eff.logs ++ next.2.2)
      else
        (eff.request :: next.1, next.2.1,
          Msg.processingPage i total :: eff.logs ++ Msg.warningNoText i :: next.2.2)

/-- Parsed CLI arguments. Defaults recorded below in `defaultModel` /
`defaultServer`; `output = none` means `--output` was omitted. -/
structure Args where
  pdf_file : String
  model : String
  server : String
  output : Option String
deriving Repr, DecidableEq

/-- Default for `--model`. -/
def defaultModel : String := "gemma3:27b"

/-- Default for `--server`. -/
def defaultServer : String := "http://10.147.17.205:11434/api/generate"

/-- Observables of one run of `main`. `result` is the joined string the code
names `result`; `stdout` is the full text written to standard output
(`print(result)` appends a newline); `fileWrites` are `(path, content)` pairs. -/
structure RunResult where
  exitCode : Nat
  renderCalled : Bool
  requests : List HttpRequest
  allText : List String
  result : String
  stdout : String
  fileWrites : List (String × String)
  stderr : List Msg
deriving Repr, DecidableEq

/-- Python `main()`: validate the input path, render the PDF, run the page loop, join
`all_text` with `"\n"`, and write the result to the output file or print it.
`fileExists` models `pdf_path.exists()`; `renderOutcome` is the external
renderer's answer, `none` when `convert_from_path` raises (then
`convert_pdf_to_images` logs and exits 1). -/
def main (args : Args) (fileExists : Bool) (renderOutcome : Option (List PageImage))
    (oracle : Nat → HttpOutcome) : RunResult :=
  if !fileExists then
    { exitCode := 1, renderCalled := false, requests := [], allText := [],
      result := "", stdout := "", fileWrites := [],
      stderr := [Msg.fileNotFound args.pdf_file] }
  else
    match renderOutcome with
    | none =>
        { exitCode := 1, renderCalled := true, requests := [], allText := [],
          result := "", stdout := "", fileWrites := [],
          stderr := [Msg.convertingPdf, Msg.errorConvertingPdf] }
    | some images =>
        let loop := processPages args.model args.server oracle images.length images 1
        let all_text := loop.2.1
        let result := String.intercalate "\n" all_text
        let header := [Msg.convertingPdf, Msg.processingPages images.length]
        match args.output with
        | some path =>
            { exitCode := 0, renderCalled := true, requests := loop.1,
              allText := all_text, result := result, stdout := "",
              fileWrites := [(path, result)],
              stderr := header ++ loop.2.2 ++ [Msg.outputWritten path] }
        | none =>
            { exitCode := 0, renderCalled := true, requests := loop.1,
              allText := all_text, result := result, stdout := result ++ "\n",
              fileWrites := [],
              stderr := header ++ loop.2.2 }

/-! ### Spec-side derived notions -/

/-- The 1-based page numbers that contribute a block to the output: pages whose
inference result is truthy, in increasing page order. -/
def blockPages (oracle : Nat → HttpOutcome) (n : Nat) : List Nat :=
  (List.range' 1 n).filter (fun i => truthy (inferText (oracle i)))

/-- The text the driver would use for page `i` (the client's result, with
`none` read as empty). -/
def pageTextOf (oracle : Nat → HttpOutcome) (i : Nat) : String :=
  (inferText (oracle i)).getD ""

/-- The client's stderr messages as a function of the HTTP outcome alone. -/
def inferLogs (outcome : HttpOutcome) : List Msg :=
  (ocr_image_with_ollama "" "" "" outcome).logs

/-! ### Concrete scenario data -/

/-- A concrete page image (the empty PNG byte stream). -/
def imgA : PageImage := ⟨[]⟩

/-- Oracle for the two-page scenario: page 1 answers `{"response": "Hello"}`,
every other page `{"response": ""}`. -/
def oracleHelloEmpty : Nat → HttpOutcome := fun i =>
  if i = 1 then .response 200 (some [("response", "Hello")])
  else .response 200 (some [("response", "")])

/-- Oracle answering `{"response": "Hello"}` on every page. -/
def oracleHello : Nat → HttpOutcome := fun _ =>
  .response 200 (some [("response", "Hello")])

/-- Oracle whose page-1 call fails at the transport layer. -/
def oracleErrAt1 : Nat → HttpOutcome := fun i =>
  if i = 1 then .transportError else .response 200 (some [("response", "Hi")])

/-- Oracle whose page-1 call succeeds with an empty `"response"`. -/
def oracleEmptyAt1 : Nat → HttpOutcome := fun i =>
  if i = 1 then .response 200 (some [("response", "")])
  else .response 200 (some [("response", "Hi")])

/-! ### Helper lemmas about the client -/

theorem ocr_result_eq (img m u : String) (o : HttpOutcome) :
    (ocr_image_with_ollama img m u o).result = inferText o := by
  cases o with
  | transportError => rfl
  | response status body =>
      by_cases h : 400 ≤ status ∧ status < 600
      · simp [inferText, ocr_image_with_ollama, h]
      · cases body <;> simp [inferText, ocr_image_with_ollama, h]

theorem ocr_logs_eq (img m u : String) (o : HttpOutcome) :
    (ocr_image_with_ollama img m u o).logs = inferLogs o := by
  cases o with
  | transportError => rfl
  | response status body =>
      by_cases h : 400 ≤ status ∧ status < 600
      · simp [inferLogs, ocr_image_with_ollama, h]
      · cases body <;> simp [inferLogs, ocr_image_with_ollama, h]

/-! ### Helper lemmas about the page loop -/

theorem processPages_blocks (m u : String) (oracle : Nat → HttpOutcome) (total : Nat) :
    ∀ (imgs : List PageImage) (start : Nat),
      (processPages m u oracle total imgs start).2.1 =
        ((List.range' start imgs.length).filter (fun i => truthy (inferText (oracle i)))).map
          (fun i => pageBlock i (pageTextOf oracle i)) := by
  intro imgs
  induction imgs with
  | nil => intro start; simp [processPages]
  | cons img rest ih =>
      intro start
      have hres := ocr_result_eq (image_to_base64 img) m u (oracle start)
      by_cases h : truthy (inferText (oracle start)) <;>
        simp [processPages, List.range'_succ, hres, h, ih (start + 1), pageTextOf]

theorem processPages_requests_length (m u : String) (oracle : Nat → HttpOutcome)
    (total : Nat) :
    ∀ (imgs : List PageImage) (start : Nat),
      (processPages m u oracle total imgs start).1.length = imgs.length := by
  intro imgs
  induction imgs with
  | nil => intro start; simp [processPages]
  | cons img rest ih =>
      intro start
      by_cases h : truthy ((ocr_image_with_ollama (image_to_base64 img) m u (oracle start)).result) <;>
        simp [processPages, h, ih (start + 1)]

theorem processPages_logs_mem (m u : String) (oracle : Nat → HttpOutcome) (total : Nat) :
    ∀ (imgs : List PageImage) (start i : Nat), start ≤ i → i < start + imgs.length →
      (∀ msg ∈ inferLogs (oracle i), msg ∈ (processPages m u oracle total imgs start).2.2) ∧
      (truthy (inferText (oracle i)) = false →
        Msg.warningNoText i ∈ (processPages m u oracle total imgs start).2.2) := by
  intro imgs
  induction imgs with
  | nil => intro start i h1 h2; simp at h2; omega
  | cons img rest ih =>
      intro start i h1 h2
      have hlog := ocr_logs_eq (image_to_base64 img) m u (oracle start)
      have hres := ocr_result_eq (image_to_base64 img) m u (oracle start)
      rcases Nat.eq_or_lt_of_le h1 with heq | hlt
      · subst heq
        by_cases hs : truthy (inferText (oracle start))
        · refine ⟨fun msg hmsg => ?_, fun hfalse => ?_⟩
          · simp [processPages, hres, hs, hlog]
            tauto
          · rw [hs] at hfalse
            exact absurd hfalse (by simp)
        · refine ⟨fun msg hmsg => ?_, fun _ => ?_⟩
          · simp [processPages, hres, hs, hlog]
            tauto
          · simp [processPages, hres, hs, hlog]
      · have htail := ih (start + 1) i (by omega) (by simp at h2; omega)
        refine ⟨fun msg hmsg => ?_, fun hfalse => ?_⟩
        · have hmem := htail.1 msg hmsg
          by_cases hs : truthy (inferText (oracle start)) <;>
            simp [processPages, hres, hs, hlog] <;> tauto
        · have hmem := htail.2 hfalse
          by_cases hs : truthy (inferText (oracle start)) <;>
            simp [processPages, hres, hs, hlog] <;> tauto

/-! ### Helper lemmas about the driver (success path) -/

theorem main_success_allText (args : Args) (imgs : List PageImage)
    (oracle : Nat → HttpOutcome) :
    (main args true (some imgs) oracle).allText =
      (blockPages oracle imgs.length).map (fun i => pageBlock i (pageTextOf oracle i)) := by
  cases hout : args.output <;>
    simp [main, hout, blockPages, processPages_blocks]

theorem main_success_result (args : Args) (imgs : List PageImage)
    (oracle : Nat → HttpOutcome) :
    (main args true (some imgs) oracle).result =
      String.intercalate "\n" (main args true (some imgs) oracle).allText := by
  cases hout : args.output <;> simp [main, hout]

theorem main_success_exitCode (args : Args) (imgs : List PageImage)
    (oracle : Nat → HttpOutcome) :
    (main args true (some imgs) oracle).exitCode = 0 := by
  cases hout : args.output <;> simp [main, hout]

theorem main_success_requests_length (args : Args) (imgs : List PageImage)
    (oracle : Nat → HttpOutcome) :
    (main args true (some imgs) oracle).requests.length = imgs.length := by
  cases hout : args.output <;> simp [main, hout, processPages_requests_length]

theorem main_success_logs_mem (args : Args) (imgs : List PageImage)
    (oracle : Nat → HttpOutcome) (msg : Msg) :
    msg ∈ (processPages args.model args.server oracle imgs.length imgs 1).2.2 →
    msg ∈ (main args true (some imgs) oracle).stderr := by
  intro hmsg
  cases hout : args.output <;> simp [main, hout] <;> tauto

theorem main_success_stdout (args : Args) (imgs : List PageImage)
    (oracle : Nat → HttpOutcome) :
    (main args true (some imgs) oracle).stdout =
      match args.output with
      | some _ => ""
      | none => (main args true (some imgs) oracle).result ++ "\n" := by
  cases hout : args.output <;> simp [main, hout]

theorem main_success_fileWrites (args : Args) (imgs : List PageImage)
    (oracle : Nat → HttpOutcome) :
    (main args true (some imgs) oracle).fileWrites =
      match args.output with
      | some path => [(path, (main args true (some imgs) oracle).result)]
      | none => [] := by
  cases hout : args.output <;> simp [main, hout]

theorem mem_blockPages (oracle : Nat → HttpOutcome) (n i : Nat) :
    i ∈ blockPages oracle n ↔
      1 ≤ i ∧ i ≤ n ∧ truthy (inferText (oracle i)) = true := by
  simp [blockPages, List.mem_filter, List.mem_range'_1, and_assoc]
  intro _ _
  omega

theorem blockPages_pairwise (oracle : Nat → HttpOutcome) (n : Nat) :
    (blockPages oracle n).Pairwise (· < ·) :=
  List.Pairwise.sublist (List.filter_sublist _) (List.pairwise_lt_range' 1 n)

theorem blockPages_length_le (oracle : Nat → HttpOutcome) (n : Nat) :
    (blockPages oracle n).length ≤ n := by
  have h := List.length_filter_le (fun i => truthy (inferText (oracle i))) (List.range' 1 n)
  simpa [blockPages] using h

/-! ### Base64 helper lemmas -/

theorem b64Index_b64Char : ∀ n, n < 64 → b64Index (b64Char n) = some n := by decide

theorem b64Char_ne_pad : ∀ n, n < 64 → ¬(b64Char n = '=') := by decide

theorem b64DecodeChars_b64EncodeBytes :
    ∀ (bs : List Nat), (∀ b ∈ bs, b < 256) →
      b64DecodeChars (b64EncodeBytes bs) = some bs := by
  intro bs
  induction bs using b64EncodeBytes.induct with
  | case1 =>
      intro _
      rfl
  | case2 a =>
      intro h
      have ha : a < 256 := h a (by simp)
      have h1 : a / 4 < 64 := by omega
      have h2 : a % 4 * 16 < 64 := by omega
      simp [b64EncodeBytes, b64DecodeChars, b64Index_b64Char _ h1, b64Index_b64Char _ h2]
      omega
  | case3 a b =>
      intro h
      have ha : a < 256 := h a (by simp)
      have hb : b < 256 := h b (by simp)
      have h1 : a / 4 < 64 := by omega
      have h2 : a % 4 * 16 + b / 16 < 64 := by omega
      have h3 : b % 16 * 4 < 64 := by omega
      simp [b64EncodeBytes, b64DecodeChars, b64Char_ne_pad _ h3,
            b64Index_b64Char _ h1, b64Index_b64Char _ h2, b64Index_b64Char _ h3]
      omega
  | case4 a b c rest ih =>
      intro h
      have ha : a < 256 := h a (by simp)
      have hb : b < 256 := h b (by simp)
      have hc : c < 256 := h c (by simp)
      have htail := ih (fun x hx => h x (by simp [hx]))
      have h1 : a / 4 < 64 := by omega
      have h2 : a % 4 * 16 + b / 16 < 64 := by omega
      have h3 : b % 16 * 4 + c / 64 < 64 := by omega
      have h4 : c % 64 < 64 := by omega
      simp [b64EncodeBytes, b64DecodeChars, b64Char_ne_pad _ h3, b64Char_ne_pad _ h4,
            b64Index_b64Char _ h1, b64Index_b64Char _ h2, b64Index_b64Char _ h3,
            b64Index_b64Char _ h4, htail]
      omega

/-! ### Claim theorems -/

/-- C1 (counterexample): on a 1-page run whose inference answer is `"Hello"`,
the content written to `--output` is NOT character-for-character equal to the
text that reaches standard output when `--output` is omitted: `print(result)`
appends a trailing newline that `f.write(result)` does not. -/
theorem spec_C1_counterexample :
    ¬ ((main ⟨"doc.pdf", "m", "u", some "out.txt"⟩ true (some [imgA]) oracleHello).fileWrites =
      [("out.txt", (main ⟨"doc.pdf", "m", "u", none⟩ true (some [imgA]) oracleHello).stdout)]) := by
  decide

/-- C1 (amended): the file named by `--output` receives exactly the computed
result string; that string is identical to the one computed when `--output` is
omitted, and standard output then receives that same string followed by the
single trailing newline added by `print`. -/
theorem spec_C1_output_file_eq_result (args : Args) (path : String)
    (imgs : List PageImage) (oracle : Nat → HttpOutcome) :
    (main { args with output := some path } true (some imgs) oracle).fileWrites =
      [(path, (main { args with output := some path } true (some imgs) oracle).result)] ∧
    (main { args with output := some path } true (some imgs) oracle).result =
      (main { args with output := none } true (some imgs) oracle).result ∧
    (main { args with output := none } true (some imgs) oracle).stdout =
      (main { args with output := some path } true (some imgs) oracle).result ++ "\n" := by
  refine ⟨?_, ?_, ?_⟩ <;> simp [main]

/-- C2: for a 2-page PDF whose page-1 inference result is `"Hello"` and whose
page-2 inference result is the empty string, the final output is exactly
`"--- Page 1 ---\nHello\n"` and the accumulator holds no block for page 2. -/
theorem spec_C2_two_page_scenario :
    (main ⟨"doc.pdf", "m", "u", none⟩ true (some [imgA, imgA]) oracleHelloEmpty).result =
        "--- Page 1 ---\nHello\n" ∧
    (main ⟨"doc.pdf", "m", "u", none⟩ true (some [imgA, imgA]) oracleHelloEmpty).allText =
        ["--- Page 1 ---\nHello\n"] := by
  constructor <;> rfl

/-- C4: on a successful HTTP response whose body parses as a JSON object, the
client returns the value of the `"response"` field, and the empty string when
that field is absent. -/
theorem spec_C4_success_json (img m u : String) (status : Nat) (d : JsonObj)
    (hstatus : status < 400) :
    (∀ v, List.lookup "response" d = some v →
        (ocr_image_with_ollama img m u (.response status (some d))).result = some v) ∧
    (List.lookup "response" d = none →
        (ocr_image_with_ollama img m u (.response status (some d))).result = some "") := by
  have h : ¬(400 ≤ status ∧ status < 600) := by omega
  refine ⟨fun v hv => ?_, fun hv => ?_⟩ <;> simp [ocr_image_with_ollama, h, dictGet, hv]

/-- Witness for C4 at a concrete successful response. -/
theorem spec_C4_witness :
    (∀ v, List.lookup "response" ([("response", "Hi")] : JsonObj) = some v →
        (ocr_image_with_ollama "" "m" "u" (.response 200 (some [("response", "Hi")]))).result
          = some v) ∧
    (List.lookup "response" ([("response", "Hi")] : JsonObj) = none →
        (ocr_image_with_ollama "" "m" "u" (.response 200 (some [("response", "Hi")]))).result
          = some "") :=
  spec_C4_success_json "" "m" "u" 200 [("response", "Hi")] (by omega)

/-- C5: every invocation of the client issues exactly one POST whose body has
exactly the four fields `model` (the configured model), `prompt` (the fixed
instruction string), `stream := false` and `images := [encoded image]`, with
Content-Type `application/json`. -/
theorem spec_C5_request_payload (img m u : String) (o : HttpOutcome) :
    (ocr_image_with_ollama img m u o).request =
      { url := u
        payload :=
          { model := m
            prompt := "Extract and return all text from this image. Provide only the text content without any additional commentary."
            stream := false
            images := [img] }
        contentType := "application/json" } := by
  cases o with
  | transportError => rfl
  | response status body =>
      by_cases h : 400 ≤ status ∧ status < 600
      · simp [ocr_image_with_ollama, h]
      · cases body <;> simp [ocr_image_with_ollama, h]

/-- C6: when the input path does not exist, the run exits with status 1
(non-zero), reports the missing file on the diagnostic stream, never invokes
the renderer, issues no network request, and writes nothing to standard output
or to any file. -/
theorem spec_C6_missing_input (args : Args) (r : Option (List PageImage))
    (oracle : Nat → HttpOutcome) :
    (main args false r oracle).exitCode = 1 ∧
    (main args false r oracle).exitCode ≠ 0 ∧
    (main args false r oracle).renderCalled = false ∧
    (main args false r oracle).requests = [] ∧
    (main args false r oracle).stdout = "" ∧
    (main args false r oracle).fileWrites = [] ∧
    Msg.fileNotFound args.pdf_file ∈ (main args false r oracle).stderr := by
  refine ⟨?_, ?_, ?_, ?_, ?_, ?_, ?_⟩ <;> simp [main]

/-- C9: the image encoding depends only on the PNG byte stream (determinism),
and it is a lossless round trip: base64-decoding the encoder's output
reproduces exactly the original byte stream. -/
theorem spec_C9_base64_roundtrip (img : PageImage)
    (h : ∀ b ∈ img.pngBytes, b < 256) :
    (∀ img' : PageImage, img'.pngBytes = img.pngBytes →
        image_to_base64 img' = image_to_base64 img) ∧
    base64Decode (image_to_base64 img) = some img.pngBytes := by
  refine ⟨fun img' hh => by simp [image_to_base64, hh], ?_⟩
  exact b64DecodeChars_b64EncodeBytes img.pngBytes h

/-- Witness for C9 on the byte stream of the ASCII text `Hello`. -/
theorem spec_C9_witness :
    base64Decode (image_to_base64 ⟨[72, 101, 108, 108, 111]⟩)
      = some [72, 101, 108, 108, 111] :=
  (spec_C9_base64_roundtrip ⟨[72, 101, 108, 108, 111]⟩ (by decide)).2

/-- Witness for C1 (amended) on a concrete 1-page run. -/
theorem spec_C1_witness :
    (main ⟨"doc.pdf", "m", "u", some "out.txt"⟩ true (some [imgA]) oracleHello).fileWrites =
      [("out.txt",
        (main ⟨"doc.pdf", "m", "u", some "out.txt"⟩ true (some [imgA]) oracleHello).result)] :=
  (spec_C1_output_file_eq_result ⟨"doc.pdf", "m", "u", none⟩ "out.txt" [imgA] oracleHello).1

/-- Witness for C6 on a concrete missing-file run. -/
theorem spec_C6_witness :
    (main ⟨"doc.pdf", "m", "u", none⟩ false none oracleHello).exitCode ≠ 0 :=
  (spec_C6_missing_input ⟨"doc.pdf", "m", "u", none⟩ none oracleHello).2.1

/-- C8: on the success path the final output is the accumulator joined with
`"\n"`; the accumulator carries exactly one labeled block
`--- Page i ---\n{text}\n` for each 1-based page `i` whose inference result is
non-empty, in strictly increasing page order, hence at most N blocks for N
rendered pages. -/
theorem spec_C8_output_blocks (args : Args) (imgs : List PageImage)
    (oracle : Nat → HttpOutcome) :
    (main args true (some imgs) oracle).result =
      String.intercalate "\n" (main args true (some imgs) oracle).allText ∧
    (main args true (some imgs) oracle).allText =
      (blockPages oracle imgs.length).map (fun i => pageBlock i (pageTextOf oracle i)) ∧
    (main args true (some imgs) oracle).allText.length ≤ imgs.length ∧
    (blockPages oracle imgs.length).Pairwise (· < ·) ∧
    (∀ i, i ∈ blockPages oracle imgs.length ↔
      1 ≤ i ∧ i ≤ imgs.length ∧ truthy (inferText (oracle i)) = true) := by
  refine ⟨main_success_result args imgs oracle, main_success_allText args imgs oracle, ?_,
    blockPages_pairwise oracle imgs.length, fun i => mem_blockPages oracle imgs.length i⟩
  rw [main_success_allText]
  simpa using blockPages_length_le oracle imgs.length

/-- Witness for C8 on a concrete 2-page run. -/
theorem spec_C8_witness :
    (main ⟨"doc.pdf", "m", "u", none⟩ true (some [imgA, imgA]) oracleHello).allText.length ≤ 2 :=
  (spec_C8_output_blocks ⟨"doc.pdf", "m", "u", none⟩ [imgA, imgA] oracleHello).2.2.1

/-- C3: when page `k`'s request fails in transport or returns a non-success
(4xx/5xx) HTTP status, the client logs an error and returns an absent result;
the driver issues a request for every rendered page regardless, produces no
block for page `k`, keeps every later page's block exactly as its own result
dictates, and the run exits successfully. -/
theorem spec_C3_error_page (args : Args) (imgs : List PageImage)
    (oracle : Nat → HttpOutcome) (k : Nat)
    (hk1 : 1 ≤ k) (hk2 : k ≤ imgs.length)
    (herr : oracle k = .transportError ∨
      ∃ status body, oracle k = .response status body ∧ 400 ≤ status ∧ status < 600) :
    inferText (oracle k) = none ∧
    inferLogs (oracle k) = [Msg.errorCallingOllama] ∧
    Msg.errorCallingOllama ∈ (main args true (some imgs) oracle).stderr ∧
    (main args true (some imgs) oracle).requests.length = imgs.length ∧
    k ∉ blockPages oracle imgs.length ∧
    (main args true (some imgs) oracle).allText =
      (blockPages oracle imgs.length).map (fun i => pageBlock i (pageTextOf oracle i)) ∧
    (∀ j, k < j → j ≤ imgs.length →
      (j ∈ blockPages oracle imgs.length ↔ truthy (inferText (oracle j)) = true)) ∧
    (main args true (some imgs) oracle).exitCode = 0 := by
  have hnone : inferText (oracle k) = none := by
    rcases herr with h | ⟨status, body, h, h4, h6⟩
    · rw [h]; rfl
    · have hcond : 400 ≤ status ∧ status < 600 := ⟨h4, h6⟩
      rw [h]; cases body <;> simp [inferText, ocr_image_with_ollama, hcond]
  have hlogs : inferLogs (oracle k) = [Msg.errorCallingOllama] := by
    rcases herr with h | ⟨status, body, h, h4, h6⟩
    · rw [h]; rfl
    · have hcond : 400 ≤ status ∧ status < 600 := ⟨h4, h6⟩
      rw [h]; cases body <;> simp [inferLogs, ocr_image_with_ollama, hcond]
  refine ⟨hnone, hlogs, ?_, main_success_requests_length args imgs oracle, ?_,
    main_success_allText args imgs oracle, ?_, main_success_exitCode args imgs oracle⟩
  · apply main_success_logs_mem
    exact (processPages_logs_mem args.model args.server oracle imgs.length imgs 1 k
      (by omega) (by omega)).1 Msg.errorCallingOllama (by rw [hlogs]; simp)
  · intro hmem
    rw [mem_blockPages] at hmem
    rw [hnone] at hmem
    simp [truthy] at hmem
  · intro j hj1 hj2
    rw [mem_blockPages]
    constructor
    · rintro ⟨_, _, ht⟩; exact ht
    · intro ht; exact ⟨by omega, hj2, ht⟩

/-- Witness for C3: page 1 of a 2-page run fails in transport. -/
theorem spec_C3_witness :
    inferText (oracleErrAt1 1) = none ∧
    Msg.errorCallingOllama ∈
      (main ⟨"doc.pdf", "m", "u", none⟩ true (some [imgA, imgA]) oracleErrAt1).stderr ∧
    (main ⟨"doc.pdf", "m", "u", none⟩ true (some [imgA, imgA]) oracleErrAt1).requests.length = 2 ∧
    1 ∉ blockPages oracleErrAt1 2 ∧
    (main ⟨"doc.pdf", "m", "u", none⟩ true (some [imgA, imgA]) oracleErrAt1).exitCode = 0 := by
  have h := spec_C3_error_page ⟨"doc.pdf", "m", "u", none⟩ [imgA, imgA] oracleErrAt1 1
    (by omega) (by decide) (Or.inl rfl)
  exact ⟨h.1, h.2.2.1, h.2.2.2.1, h.2.2.2.2.1, h.2.2.2.2.2.2.2⟩

/-- C7: no matter what every page's inference yields, the run exits
successfully; and every page whose successful response carries an empty (or
missing) `"response"` field gets a named warning on the diagnostic stream and
contributes no block to the output. -/
theorem spec_C7_empty_result_pages (args : Args) (imgs : List PageImage)
    (oracle : Nat → HttpOutcome) :
    (main args true (some imgs) oracle).exitCode = 0 ∧
    (main args true (some imgs) oracle).allText =
      (blockPages oracle imgs.length).map (fun i => pageBlock i (pageTextOf oracle i)) ∧
    (∀ i status d, 1 ≤ i → i ≤ imgs.length →
      oracle i = .response status (some d) → status < 400 →
      dictGet d "response" "" = "" →
      Msg.warningNoText i ∈ (main args true (some imgs) oracle).stderr ∧
      i ∉ blockPages oracle imgs.length) := by
  refine ⟨main_success_exitCode args imgs oracle, main_success_allText args imgs oracle, ?_⟩
  intro i status d hi1 hi2 hor hst hd
  have hcond : ¬(400 ≤ status ∧ status < 600) := by omega
  have htext : inferText (oracle i) = some "" := by
    rw [hor]; simp [inferText, ocr_image_with_ollama, hcond, hd]
  have htruthy : truthy (inferText (oracle i)) = false := by rw [htext]; rfl
  constructor
  · apply main_success_logs_mem
    exact (processPages_logs_mem args.model args.server oracle imgs.length imgs 1 i
      (by omega) (by omega)).2 htruthy
  · intro hmem
    rw [mem_blockPages] at hmem
    rw [htruthy] at hmem
    simp at hmem

/-- Witness for C7: page 1 of a 2-page run answers an empty response. -/
theorem spec_C7_witness :
    (main ⟨"doc.pdf", "m", "u", none⟩ true (some [imgA, imgA]) oracleEmptyAt1).exitCode = 0 ∧
    Msg.warningNoText 1 ∈
      (main ⟨"doc.pdf", "m", "u", none⟩ true (some [imgA, imgA]) oracleEmptyAt1).stderr ∧
    1 ∉ blockPages oracleEmptyAt1 2 := by
  have h := spec_C7_empty_result_pages ⟨"doc.pdf", "m", "u", none⟩ [imgA, imgA] oracleEmptyAt1
  have h1 := h.2.2 1 200 [("response", "")] (by omega) (by decide) rfl (by omega) rfl
  exact ⟨h.1, h1.1, h1.2⟩

/-- C10: the driver cannot distinguish a failed request (absent result, `None`
from any of the caught failure modes: transport error, 4xx/5xx status, or an
unparseable body) from a successful request with an empty `"response"`: two
runs differing only in which of these page `i` produced have the same result
string, accumulator, exit code, stdout and file writes, and both warn about
page `i`. -/
theorem spec_C10_failure_empty_indistinguishable (args : Args) (imgs : List PageImage)
    (o1 o2 : Nat → HttpOutcome) (i status : Nat) (d : JsonObj)
    (hag : ∀ j, j ≠ i → o1 j = o2 j)
    (h1 : inferText (o1 i) = none)
    (h2 : o2 i = .response status (some d))
    (hst : status < 400)
    (hd : dictGet d "response" "" = "")
    (hi1 : 1 ≤ i) (hi2 : i ≤ imgs.length) :
    (main args true (some imgs) o1).result = (main args true (some imgs) o2).result ∧
    (main args true (some imgs) o1).allText = (main args true (some imgs) o2).allText ∧
    (main args true (some imgs) o1).exitCode = (main args true (some imgs) o2).exitCode ∧
    (main args true (some imgs) o1).stdout = (main args true (some imgs) o2).stdout ∧
    (main args true (some imgs) o1).fileWrites = (main args true (some imgs) o2).fileWrites ∧
    Msg.warningNoText i ∈ (main args true (some imgs) o1).stderr ∧
    Msg.warningNoText i ∈ (main args true (some imgs) o2).stderr := by
  have hcond : ¬(400 ≤ status ∧ status < 600) := by omega
  have ht1 : inferText (o1 i) = none := h1
  have ht2 : inferText (o2 i) = some "" := by
    rw [h2]; simp [inferText, ocr_image_with_ollama, hcond, hd]
  have htr : ∀ j, truthy (inferText (o1 j)) = truthy (inferText (o2 j)) := by
    intro j
    by_cases hj : j = i
    · subst hj; rw [ht1, ht2]; rfl
    · rw [hag j hj]
  have hbp : blockPages o1 imgs.length = blockPages o2 imgs.length := by
    unfold blockPages
    exact List.filter_congr (fun x _ => htr x)
  have hall : (main args true (some imgs) o1).allText =
      (main args true (some imgs) o2).allText := by
    rw [main_success_allText, main_success_allText, hbp]
    refine List.map_congr_left (fun j hj => ?_)
    rw [mem_blockPages] at hj
    have hji : j ≠ i := by
      intro e
      subst e
      rw [ht2] at hj
      exact absurd hj.2.2 (by decide)
    unfold pageTextOf
    rw [hag j hji]
  have hres : (main args true (some imgs) o1).result =
      (main args true (some imgs) o2).result := by
    rw [main_success_result, main_success_result, hall]
  refine ⟨hres, hall, ?_, ?_, ?_, ?_, ?_⟩
  · rw [main_success_exitCode, main_success_exitCode]
  · rw [main_success_stdout, main_success_stdout]
    cases args.output <;> simp [hres]
  · rw [main_success_fileWrites, main_success_fileWrites]
    cases args.output <;> simp [hres]
  · apply main_success_logs_mem
    exact (processPages_logs_mem args.model args.server o1 imgs.length imgs 1 i
      (by omega) (by omega)).2 (by rw [ht1]; rfl)
  · apply main_success_logs_mem
    exact (processPages_logs_mem args.model args.server o2 imgs.length imgs 1 i
      (by omega) (by omega)).2 (by rw [ht2]; rfl)

/-- Witness for C10: transport failure versus empty response on page 1. -/
theorem spec_C10_witness :
    (main ⟨"doc.pdf", "m", "u", none⟩ true (some [imgA, imgA]) oracleErrAt1).result =
      (main ⟨"doc.pdf", "m", "u", none⟩ true (some [imgA, imgA]) oracleEmptyAt1).result ∧
    Msg.warningNoText 1 ∈
      (main ⟨"doc.pdf", "m", "u", none⟩ true (some [imgA, imgA]) oracleErrAt1).stderr ∧
    Msg.warningNoText 1 ∈
      (main ⟨"doc.pdf", "m", "u", none⟩ true (some [imgA, imgA]) oracleEmptyAt1).stderr := by
  have h := spec_C10_failure_empty_indistinguishable ⟨"doc.pdf", "m", "u", none⟩
    [imgA, imgA] oracleErrAt1 oracleEmptyAt1 1 200 [("response", "")]
    (fun j hj => by simp [oracleErrAt1, oracleEmptyAt1, hj]) rfl rfl (by omega) rfl
    (by omega) (by decide)
  exact ⟨h.1, h.2.2.2.2.2.1, h.2.2.2.2.2.2⟩

end OcrPdf
